import Mathlib

/-!
Shallow embedding of the invoice-auditor repository.

Sources embedded:
- `src/invoice_auditor/core/schema.py` (data model, CVR field validator)
- `src/invoice_auditor/core/vat_manager.py` and `core/vat_manager.py` (tax rule table)
- `src/invoice_auditor/processing/post_audit.py` (verify_vat_math, handle_currency,
  assign_status)
- `src/invoice_auditor/agent/auditor.py` (packaged pipeline `run_audit` and its local
  `verify_vat_math`, identical in behaviour to `core/auditor.py`'s `_audit_vat_logic`)
- `core/auditor.py` (legacy engine: `_audit_compliance`, `_audit_currency`, final
  status assignment)
- `src/invoice_auditor/api/cvr_manager.py` and `core/cvr_manager.py` (registry client
  with on-disk cache; the two files implement the same algorithm)

Modelling conventions: Python floats are embedded as `ℚ` (the audit logic is plain
real arithmetic on decimal inputs); timestamps are integers (seconds); Python dicts
used as keyed stores become association lists; Python string interpolation of numbers
is rendered through `ratStr` (no theorem below depends on the rendered digits);
fallible construction (pydantic validation) returns `Except`.
-/

deriving instance DecidableEq for Except

namespace InvoiceAuditor

/-! ## Python string primitives -/

/-- `startsWithChars h n`: the char list `h` starts with `n`. -/
def startsWithChars : List Char → List Char → Bool
  | _, [] => true
  | [], _ :: _ => false
  | a :: as, b :: bs => a == b && startsWithChars as bs

/-- `containsChars h n`: Python `n in h` (contiguous substring test). -/
def containsChars : List Char → List Char → Bool
  | [], n => startsWithChars [] n
  | a :: t, n => startsWithChars (a :: t) n || containsChars t n

/-- Python `needle in haystack` on strings. -/
def strContains (haystack needle : String) : Bool :=
  containsChars haystack.toList needle.toList

/-- Python `str.upper()`. `Char.toUpper` is ASCII-only; all keywords and
descriptions used in this development are ASCII, where the two agree. -/
def pyUpper (s : String) : String := (s.toList.map Char.toUpper).asString

/-- Python `str.lower()` (ASCII part, see `pyUpper`). -/
def pyLower (s : String) : String := (s.toList.map Char.toLower).asString

/-- Python whitespace characters recognised by `str.strip()` (ASCII part). -/
def pyWhitespace (c : Char) : Bool :=
  c == ' ' || c == '\t' || c == '\n' || c == '\r' || c == '\x0b' || c == '\x0c'

/-- Python `str.strip()`. -/
def pyStrip (s : String) : String :=
  (((s.toList.dropWhile pyWhitespace).reverse.dropWhile pyWhitespace).reverse).asString

/-- Python `str.replace("DK", "")` specialised to the constant pattern used by the
registry client: removes every (non-overlapping, left-to-right) occurrence of "DK". -/
def removeDK : List Char → List Char
  | 'D' :: 'K' :: t => removeDK t
  | a :: t => a :: removeDK t
  | [] => []

/-- Python `str(c).isdigit()` per character. Models the CPython builtin
(Unicode `Numeric_Type=Digit`): ASCII digits plus the non-ASCII digit ranges
relevant to this development (superscripts, Arabic-Indic, extended Arabic-Indic,
Devanagari, fullwidth digits). -/
def pyIsDigitChar (c : Char) : Bool :=
  c.isDigit || c == '¹' || c == '²' || c == '³' ||
  (0x660 ≤ c.toNat && c.toNat ≤ 0x669) ||
  (0x6F0 ≤ c.toNat && c.toNat ≤ 0x6F9) ||
  (0x966 ≤ c.toNat && c.toNat ≤ 0x96F) ||
  (0xFF10 ≤ c.toNat && c.toNat ≤ 0xFF19)

/-- Python `str.isdigit()`: non-empty and every character a digit. -/
def pyIsDigit (s : String) : Bool :=
  !s.isEmpty && s.toList.all pyIsDigitChar

/-- Rendering of a rational in an interpolated message. Models Python's float
formatting only up to determinism: no theorem in this file inspects the digits. -/
def ratStr (q : ℚ) : String := toString q

/-- Python f-string rendering of an `Optional[str]` (`None` prints as "None"). -/
def optStr : Option String → String
  | some s => s
  | none => "None"

/-- Python truthiness of an `Optional[str]` (`None` and `""` are falsy). -/
def optTruthy : Option String → Bool
  | some s => !s.isEmpty
  | none => false

/-! ## Data model (`core/schema.py`) -/

/-- `Literal["Compliance", "Forex", "Anomaly", "Data Integrity"]`. -/
inductive FlagCategory
  | compliance
  | forex
  | anomaly
  | dataIntegrity
deriving DecidableEq

/-- `Literal["Low", "Medium", "High"]` — the `AuditFlag.severity` field type. -/
inductive Severity
  | low
  | medium
  | high
deriving DecidableEq

/-- Pydantic validation of a runtime string against the severity `Literal`:
`none` models a `ValidationError` on construction. -/
def Severity.ofString : String → Option Severity
  | "Low" => some .low
  | "Medium" => some .medium
  | "High" => some .high
  | _ => none

/-- `Literal["Pending", "Green", "Red", "Review"]`. -/
inductive Status
  | pending
  | green
  | red
  | review
deriving DecidableEq

/-- `Literal["DKK", "USD", "EUR", "GBP", "SEK", "NOK"]`. -/
inductive Currency
  | DKK
  | USD
  | EUR
  | GBP
  | SEK
  | NOK
deriving DecidableEq

/-- The currency code string, as interpolated into flag messages. -/
def Currency.code : Currency → String
  | .DKK => "DKK"
  | .USD => "USD"
  | .EUR => "EUR"
  | .GBP => "GBP"
  | .SEK => "SEK"
  | .NOK => "NOK"

/-- `class AuditFlag(BaseModel)`. -/
structure AuditFlag where
  category : FlagCategory
  severity : Severity
  message : String
  is_resolved : Bool := false
deriving DecidableEq

/-- `class LineItem(BaseModel)`. -/
structure LineItem where
  description : String
  quantity : ℚ := 1
  unit_price : ℚ
  total_price : ℚ
  vat_rate : ℚ
  vat_category : String
  ai_confidence : ℚ
deriving DecidableEq

/-- `class Invoice(BaseModel)` (the `upload_timestamp` metadata field is omitted:
no audit logic reads it). -/
structure Invoice where
  id : String
  filename : String
  vendor_name : String
  vendor_cvr : Option String := none
  invoice_date : String
  invoice_time : Option String := none
  currency : Currency
  prices_include_vat : Bool
  total_amount_raw : ℚ
  total_vat_raw : ℚ
  total_amount_dkk : ℚ
  exchange_rate_used : ℚ := 1
  line_items : List LineItem := []
  audit_flags : List AuditFlag := []
  status : Status := .pending
  user_notes : Option String := none
deriving DecidableEq

/-- `Invoice.add_flag`: appends a freshly constructed `AuditFlag`. -/
def Invoice.add_flag (inv : Invoice) (category : FlagCategory) (severity : Severity)
    (message : String) : Invoice :=
  { inv with audit_flags := inv.audit_flags ++ [⟨category, severity, message, false⟩] }

/-- `Invoice.validate_cvr` field validator:
`if v and (len(v) != 8 or not v.isdigit()): raise ValueError(...)`.
Python truthiness: `None` and `""` skip the check entirely. -/
def Invoice.validate_cvr : Option String → Except String (Option String)
  | none => .ok none
  | some s =>
      if s.isEmpty = false ∧ (s.length ≠ 8 ∨ pyIsDigit s = false) then
        .error "CVR must be exactly 8 digits"
      else .ok (some s)

/-! ## Tax rule table (`core/vat_manager.py`, `src/invoice_auditor/core/vat_manager.py`) -/

/-- One entry of the `exempt_keywords` list in `vat_lookup.json`. -/
structure VatRule where
  keyword : String
  vat_rate : ℚ
  category : String
  reason : String
deriving DecidableEq

/-- The `standard_defaults` dict: either key may be absent (`dict.get` defaults
apply in `lookup_item`). -/
structure VatDefaults where
  vat_rate : Option ℚ := none
  category : Option String := none
deriving DecidableEq

/-- `VatManager`'s loaded rule state (`self.rules`). -/
structure VatManager where
  exempt_keywords : List VatRule := []
  standard_defaults : VatDefaults := {}
deriving DecidableEq

/-- The `for rule in self.rules.get("exempt_keywords", [])` scan: first rule whose
keyword is a substring of the (already uppercased) description. -/
def lookupScan (descUpper : String) : List VatRule → Option VatRule
  | [] => none
  | r :: rs => if strContains descUpper r.keyword then some r else lookupScan descUpper rs

/-- `VatManager.lookup_item`: uppercase the description, scan the ordered rule list,
fall back to the configured defaults (`0.25`, `"Standard (25%)"`, `"Standard Rate"`). -/
def VatManager.lookup_item (vm : VatManager) (description : String) : ℚ × String × String :=
  let descUpper := pyUpper description
  match lookupScan descUpper vm.exempt_keywords with
  | some rule => (rule.vat_rate, rule.category, rule.reason)
  | none =>
      (vm.standard_defaults.vat_rate.getD 0.25,
       vm.standard_defaults.category.getD "Standard (25%)",
       "Standard Rate")

/-! ## Post-audit reconciliation (`processing/post_audit.py`, `agent/auditor.py`,
`core/auditor.py`) -/

/-- The mismatch-flag message of the per-line tax check. -/
def vatMismatchMsg (item : LineItem) (rule_rate : ℚ) (reason : String) : String :=
  "VAT Mismatch on " ++ item.description ++ ". AI saw " ++ ratStr (item.vat_rate * 100) ++
  "%, but rule " ++ reason ++ " expects " ++ ratStr (rule_rate * 100) ++ "%."

/-- The `for item in invoice.line_items` loop shared by both `verify_vat_math`
variants: threads the running `calculated_vat` and the invoice being flagged.
`inclusive = true` takes the `total / (1 + rate) * rate` branch of
`processing/post_audit.py`; `inclusive = false` is the `total * rate` arithmetic,
which is the only arithmetic present in `agent/auditor.py`'s `verify_vat_math`
and `core/auditor.py`'s `_audit_vat_logic`. -/
def vatLoop (vm : VatManager) (inclusive : Bool) :
    ℚ → Invoice → List LineItem → ℚ × Invoice
  | acc, inv, [] => (acc, inv)
  | acc, inv, item :: rest =>
      let rule := vm.lookup_item item.description
      let inv :=
        if item.vat_rate ≠ rule.1 then
          inv.add_flag .dataIntegrity .medium (vatMismatchMsg item rule.1 rule.2.2)
        else inv
      let acc :=
        if inclusive then acc + item.total_price / (1 + item.vat_rate) * item.vat_rate
        else acc + item.total_price * item.vat_rate
      vatLoop vm inclusive acc inv rest

/-- The math-error flag message of the aggregate tax check. -/
def vatMathErrorMsg (calculated_vat total_vat_raw : ℚ) : String :=
  "Math Error: Line items sum to " ++ ratStr calculated_vat ++
  " VAT, but invoice total says " ++ ratStr total_vat_raw ++ "."

/-- `processing/post_audit.py`'s `verify_vat_math`: per-line mismatch flags, then the
aggregate check with the inclusive/exclusive split and the fixed `> 0.05` tolerance. -/
def verify_vat_math (inv : Invoice) (vm : VatManager) : Invoice :=
  let (calculated_vat, inv1) := vatLoop vm inv.prices_include_vat 0 inv inv.line_items
  if 0.05 < |calculated_vat - inv1.total_vat_raw| then
    inv1.add_flag .dataIntegrity .high (vatMathErrorMsg calculated_vat inv1.total_vat_raw)
  else inv1

/-- `agent/auditor.py`'s local `verify_vat_math` (the one `run_audit` calls), whose
loop body is `calculated_vat += item.total_price * item.vat_rate` with no
inclusive/exclusive branch; `core/auditor.py`'s `_audit_vat_logic` is the same
computation. -/
def agent_verify_vat_math (inv : Invoice) (vm : VatManager) : Invoice :=
  let (calculated_vat, inv1) := vatLoop vm false 0 inv inv.line_items
  if 0.05 < |calculated_vat - inv1.total_vat_raw| then
    inv1.add_flag .dataIntegrity .high (vatMathErrorMsg calculated_vat inv1.total_vat_raw)
  else inv1

/-- `handle_currency` (`processing/post_audit.py`; `core/auditor.py`'s
`_audit_currency` is identical). -/
def handle_currency (inv : Invoice) : Invoice :=
  if inv.currency ≠ .DKK then
    let inv := { inv with total_amount_dkk := inv.total_amount_raw * inv.exchange_rate_used }
    inv.add_flag .forex .low
      ("Converted from " ++ inv.currency.code ++ " (Rate: " ++ ratStr inv.exchange_rate_used ++ ")")
  else { inv with total_amount_dkk := inv.total_amount_raw }

/-- `assign_status` (`processing/post_audit.py`; the inline STEP 4 of
`core/auditor.py`'s `run_audit` is the same code). -/
def assign_status (inv : Invoice) : Invoice :=
  if inv.audit_flags ≠ [] then
    { inv with status :=
        if inv.audit_flags.any (fun f => f.severity == Severity.high) then .red else .review }
  else { inv with status := .green }

/-! ## Registry verdicts and the compliance step -/

/-- The "standardized dict" a registry validation returns. Every field the code reads
with `dict.get` is an `Option`; cache entries loaded from disk may miss any key. -/
structure RiskVerdict where
  valid : Bool
  risk_level : Option String := none
  message : Option String := none
  company_name : Option String := none
  warning : Option String := none
deriving DecidableEq

/-- `core/auditor.py`'s `Auditor._audit_compliance`, parameterised by the verdict the
registry client would return (`risk_report`). The severity argument
`risk_report.get('risk_level', "High")` is a runtime string: pydantic's `Literal`
validation of `AuditFlag.severity` is `Severity.ofString`, and a failure there is a
`ValidationError` raised out of `add_flag` (the `.error` case). When the vendor CVR
is falsy the verdict parameter is never consulted (no registry call is made). -/
def audit_compliance (inv : Invoice) (risk_report : RiskVerdict) : Except String Invoice :=
  if optTruthy inv.vendor_cvr then
    if risk_report.valid then .ok inv
    else
      match Severity.ofString (risk_report.risk_level.getD "High") with
      | some sev => .ok (inv.add_flag .compliance sev ("CVR Alert: " ++ optStr risk_report.message))
      | none => .error "severity: Input should be Low, Medium or High"
  else .ok (inv.add_flag .compliance .medium "No CVR number found on receipt.")

/-! ## The packaged pipeline (`agent/auditor.py`'s `run_audit`, post-extraction part) -/

/-- `class AuditResult(BaseModel)`: what the extraction agent returns. -/
structure AuditResult where
  vendor_name : String
  vendor_cvr : Option String := none
  invoice_date : String
  invoice_time : Option String := none
  currency : Currency
  prices_include_vat : Bool
  total_amount_raw : ℚ
  total_vat_raw : ℚ
  line_items : List LineItem := []
  audit_flags : List AuditFlag := []
deriving DecidableEq

/-- The deterministic tail of `agent/auditor.py`'s `run_audit` after extraction:
`Invoice(id=..., filename=..., total_amount_dkk=total_amount_raw, **audit_result)`
(running the CVR field validator), then the module-local `verify_vat_math`, then
`handle_currency`, then `assign_status`. No compliance step appears in this
pipeline. -/
def agent_run_audit_post (ar : AuditResult) (invId filename : String) (vm : VatManager) :
    Except String Invoice :=
  match Invoice.validate_cvr ar.vendor_cvr with
  | .error e => .error e
  | .ok v =>
      let inv : Invoice :=
        { id := invId, filename := filename, vendor_name := ar.vendor_name,
          vendor_cvr := v, invoice_date := ar.invoice_date,
          invoice_time := ar.invoice_time, currency := ar.currency,
          prices_include_vat := ar.prices_include_vat,
          total_amount_raw := ar.total_amount_raw, total_vat_raw := ar.total_vat_raw,
          total_amount_dkk := ar.total_amount_raw, line_items := ar.line_items,
          audit_flags := ar.audit_flags }
      let inv := agent_verify_vat_math inv vm
      let inv := handle_currency inv
      let inv := assign_status inv
      .ok inv

/-- The deterministic tail of `core/auditor.py`'s `run_audit` after the `Invoice` is
built: `_audit_vat_logic` (the exclusive-only arithmetic, see
`agent_verify_vat_math`), `_audit_compliance` with the registry's verdict,
`_audit_currency` (= `handle_currency`), then the inline final status assignment
(= `assign_status`). -/
def legacy_run_audit_post (inv : Invoice) (vm : VatManager) (risk_report : RiskVerdict) :
    Except String Invoice :=
  match audit_compliance (agent_verify_vat_math inv vm) risk_report with
  | .error e => .error e
  | .ok inv => .ok (assign_status (handle_currency inv))

/-! ## Registry client (`api/cvr_manager.py`, `core/cvr_manager.py`) -/

/-- One cache entry: the stored last-checked timestamp and risk report
(`last_checked` is an ISO string in the source; timestamps are modelled in
seconds here). -/
structure CacheEntry where
  last_checked : ℤ
  data : RiskVerdict
deriving DecidableEq

/-- `self.cache`: the JSON object keyed by normalised CVR, as an association list. -/
abbrev CacheStore := List (String × CacheEntry)

/-- Python `dict.get`. -/
def cacheGet (c : CacheStore) (k : String) : Option CacheEntry :=
  match c with
  | [] => none
  | (k', v) :: t => if k' == k then some v else cacheGet t k

/-- Python `dict[k] = v`: overwrite in place, append if absent. -/
def cacheSet (c : CacheStore) (k : String) (v : CacheEntry) : CacheStore :=
  match c with
  | [] => [(k, v)]
  | (k', v') :: t => if k' == k then (k, v) :: t else (k', v') :: cacheSet t k v

/-- `timedelta(days=7)` in seconds. -/
def cacheTtl : ℤ := 7 * 86400

/-- `cvr_clean = str(cvr_number).strip().replace("DK", "")`. -/
def cleanCvr (s : String) : String := (removeDK (pyStrip s).toList).asString

/-- The raw registry payload: the parsed fields the code reads, plus `dump`, the
`str(api_data)` serialisation that `_analyze_risk` scans for risk tokens. -/
structure RegistryPayload where
  name : Option String := none
  enddate : Option String := none
  dump : String := ""
deriving DecidableEq

/-- `CvrManager._analyze_risk`. -/
def analyze_risk (api_data : RegistryPayload) : RiskVerdict :=
  let result : RiskVerdict :=
    { valid := true, company_name := api_data.name, risk_level := some "Low",
      message := some "Company is active and valid." }
  if optTruthy api_data.enddate then
    { result with
      valid := false,
      risk_level := some "High",
      message := some ("Company Dissolved (Ophørt) on " ++ optStr api_data.enddate) }
  else
    let status_text := pyLower api_data.dump
    if strContains status_text "konkurs" then
      { result with
        valid := false,
        risk_level := some "Critical",
        message := some "WARNING: Company is Bankrupt (Under Konkurs)." }
    else if strContains status_text "tvangsopløsning" then
      { result with
        valid := false,
        risk_level := some "Critical",
        message := some "WARNING: Forced Dissolution (Tvangsopløsning)." }
    else result

/-- The outcome of one registry HTTP attempt, abstracting the transport:
`success` is HTTP 200 with a parsed JSON body, `notFound` is HTTP 404,
`otherStatus` any other status code, `transportError` a raised exception
(timeouts included). -/
inductive NetResponse
  | success (payload : RegistryPayload)
  | notFound
  | otherStatus
  | transportError (err : String)
deriving DecidableEq

/-- The observable result of `CvrManager.validate_cvr`: the returned verdict, the
manager's cache afterwards, and whether an HTTP request was attempted. -/
structure CvrOutcome where
  verdict : RiskVerdict
  cache : CacheStore
  httpCalled : Bool
deriving DecidableEq

/-- The warning added when falling back to a stale cache entry. -/
def offlineWarning : String := "Offline Mode: Using cached data > 7 days old."

/-- The fetch-and-classify part of `validate_cvr` (everything after the fresh-cache
check). In the `transportError` branch with a (necessarily stale) cache entry,
`data = cached_data['data']; data['warning'] = ...` mutates the dict stored inside
`self.cache` in place — embedded as the explicit `cacheSet` on the entry. -/
def cvrFetch (cache : CacheStore) (now : ℤ) (cvr_clean : String) (net : NetResponse)
    (cached_data : Option CacheEntry) : CvrOutcome :=
  match net with
  | .success raw_data =>
      let analyzed_data := analyze_risk raw_data
      { verdict := analyzed_data,
        cache := cacheSet cache cvr_clean ⟨now, analyzed_data⟩,
        httpCalled := true }
  | .notFound =>
      { verdict := { valid := false, risk_level := some "High",
                     message := some "CVR number not found in registry." },
        cache := cache, httpCalled := true }
  | .otherStatus =>
      { verdict := { valid := false, risk_level := some "High",
                     message := some "Unknown error." },
        cache := cache, httpCalled := true }
  | .transportError err =>
      match cached_data with
      | some e =>
          let data := { e.data with warning := some offlineWarning }
          { verdict := data,
            cache := cacheSet cache cvr_clean { e with data := data },
            httpCalled := true }
      | none =>
          { verdict := { valid := false, risk_level := some "Unknown",
                         message := some ("API Error: " ++ err) },
            cache := cache, httpCalled := true }

/-- `CvrManager.validate_cvr`: normalise, consult the cache (fresh entries are
returned verbatim with no request), otherwise fetch with outcome `net`. -/
def CvrManager.validate_cvr (cache : CacheStore) (now : ℤ) (cvr_number : String)
    (net : NetResponse) : CvrOutcome :=
  let cvr_clean := cleanCvr cvr_number
  let cached_data := cacheGet cache cvr_clean
  match cached_data with
  | some e =>
      if now - e.last_checked < cacheTtl then
        { verdict := e.data, cache := cache, httpCalled := false }
      else cvrFetch cache now cvr_clean net cached_data
  | none => cvrFetch cache now cvr_clean net cached_data

/-! ## Derived forms of the tax-verification loop

Pure decompositions of `vatLoop` used to reason about re-application: the running
sum and the appended flags as functions of the fields the loop actually reads. -/

/-- The value `calculated_vat` holds after the loop, started from `0`. -/
def vatSum (inclusive : Bool) : List LineItem → ℚ
  | [] => 0
  | item :: rest =>
      (if inclusive then item.total_price / (1 + item.vat_rate) * item.vat_rate
       else item.total_price * item.vat_rate) + vatSum inclusive rest

/-- The per-line mismatch flags the loop appends, in item order. -/
def vatMismatchFlags (vm : VatManager) : List LineItem → List AuditFlag
  | [] => []
  | item :: rest =>
      (if item.vat_rate ≠ (vm.lookup_item item.description).1 then
         [⟨.dataIntegrity, .medium,
           vatMismatchMsg item (vm.lookup_item item.description).1
             (vm.lookup_item item.description).2.2, false⟩]
       else []) ++ vatMismatchFlags vm rest

/-- The aggregate-check flag, present exactly when the `> 0.05` tolerance is
exceeded. -/
def aggFlagList (calculated_vat total_vat_raw : ℚ) : List AuditFlag :=
  if 0.05 < |calculated_vat - total_vat_raw| then
    [⟨.dataIntegrity, .high, vatMathErrorMsg calculated_vat total_vat_raw, false⟩]
  else []

/-- Everything one `verify_vat_math` application appends. -/
def verifyNewFlags (vm : VatManager) (inv : Invoice) : List AuditFlag :=
  vatMismatchFlags vm inv.line_items ++
    aggFlagList (vatSum inv.prices_include_vat inv.line_items) inv.total_vat_raw

/-! ## Concrete fixtures used in closed evaluations -/

/-- An empty rule table: every description falls through to the defaults. -/
def vm0 : VatManager := {}

/-- A one-rule table matching the repository's Pant (bottle-deposit) example. -/
def vmPant : VatManager :=
  { exempt_keywords :=
      [{ keyword := "PANT", vat_rate := 0, category := "Exempt",
         reason := "Deposit (Pant) is VAT-free" }] }

/-- A line item with no matching keyword, consistent claimed rate, and the
125.00-at-25% totals of the tolerance example. -/
def itemWidget : LineItem :=
  { description := "Widget", quantity := 1, unit_price := 125, total_price := 125,
    vat_rate := 0.25, vat_category := "Standard (25%)", ai_confidence := 1 }

/-- A tax-inclusive invoice without a vendor CVR whose claimed tax matches the
inclusive arithmetic exactly (125.00 at 25% inclusive is 25.00). -/
def invNoCvr : Invoice :=
  { id := "uuid-9", filename := "kiosk.jpg", vendor_name := "Kiosk",
    invoice_date := "2026-02-02", currency := .DKK, prices_include_vat := true,
    total_amount_raw := 125, total_vat_raw := 25, total_amount_dkk := 125,
    line_items := [itemWidget] }

/-- The same document as `invNoCvr`, as the extraction agent returns it. -/
def arNoCvr : AuditResult :=
  { vendor_name := "Kiosk", invoice_date := "2026-02-02", currency := .DKK,
    prices_include_vat := true, total_amount_raw := 125, total_vat_raw := 25,
    line_items := [itemWidget] }

/-- An invoice with a present, truthy vendor CVR and no line items. -/
def invCvr : Invoice :=
  { id := "uuid-1234-5678", filename := "netto.jpg", vendor_name := "Netto",
    vendor_cvr := some "35954716", invoice_date := "2025-10-27",
    currency := .DKK, prices_include_vat := true,
    total_amount_raw := 150, total_vat_raw := 30, total_amount_dkk := 150 }

/-- An invoice whose audit produces no flags at all (zero totals, valid CVR). -/
def invGreen : Invoice :=
  { id := "uuid-2", filename := "ok.jpg", vendor_name := "Netto",
    vendor_cvr := some "35954716", invoice_date := "2025-10-27",
    currency := .DKK, prices_include_vat := true,
    total_amount_raw := 0, total_vat_raw := 0, total_amount_dkk := 0 }

/-- A foreign-currency invoice (EUR at rate 7.45). -/
def invEur : Invoice :=
  { id := "uuid-7", filename := "berlin.jpg", vendor_name := "REWE",
    invoice_date := "2026-03-03", currency := .EUR, prices_include_vat := true,
    total_amount_raw := 100, total_vat_raw := 19, total_amount_dkk := 100,
    exchange_rate_used := 7.45 }

/-- A tax-exclusive invoice whose computed/claimed tax difference is exactly the
0.05 tolerance (100.00 at 25% exclusive is 25.00; claimed 24.95). -/
def invBoundary : Invoice :=
  { id := "uuid-5", filename := "b2b.jpg", vendor_name := "Grossist",
    invoice_date := "2026-04-04", currency := .DKK, prices_include_vat := false,
    total_amount_raw := 125, total_vat_raw := 24.95, total_amount_dkk := 125,
    line_items := [{ description := "Widget", quantity := 1, unit_price := 100,
                     total_price := 100, vat_rate := 0.25,
                     vat_category := "Standard (25%)", ai_confidence := 1 }] }

/-- A verdict with risk level `Unknown`, as the registry client returns on a
transport failure with an empty cache. -/
def rrUnknown : RiskVerdict :=
  { valid := false, risk_level := some "Unknown",
    message := some "API Error: connection timed out" }

/-- A verdict with risk level `Critical`, as `_analyze_risk` returns on a
bankruptcy token. -/
def rrCritical : RiskVerdict :=
  { valid := false, risk_level := some "Critical",
    message := some "WARNING: Company is Bankrupt (Under Konkurs)." }

/-- An invalid verdict with risk level `High` (the registry's 404 verdict). -/
def rrHigh : RiskVerdict :=
  { valid := false, risk_level := some "High",
    message := some "CVR number not found in registry." }

/-- The benign verdict of an active company. -/
def rrValid : RiskVerdict :=
  { valid := true, risk_level := some "Low",
    message := some "Company is active and valid." }

/-- The cached verdict used in the registry-cache scenarios. -/
def verdictLow : RiskVerdict :=
  { valid := true, company_name := some "Netto A/S", risk_level := some "Low",
    message := some "Company is active and valid." }

/-- A cache holding one entry, last checked at time `0`. -/
def cacheNetto : CacheStore := [("35954716", ⟨0, verdictLow⟩)]

/-! ## Helper lemmas -/

set_option maxHeartbeats 1000000

/-- The lookup scan is the first match of the substring predicate. -/
lemma lookupScan_eq_find (descU : String) (rules : List VatRule) :
    lookupScan descU rules = rules.find? (fun r => strContains descU r.keyword) := by
  induction rules with
  | nil => rfl
  | cons r rs ih =>
      cases hc : strContains descU r.keyword <;>
        simp [lookupScan, List.find?_cons, hc, ih]

/-- `assign_status` always moves the status off `Pending`. -/
lemma status_ne_pending (i : Invoice) : (assign_status i).status ≠ Status.pending := by
  unfold assign_status
  split
  · simp only []
    split <;> simp
  · simp

lemma append_eq_self_iff (l m : List AuditFlag) : (l ++ m = l) ↔ m = [] := by
  constructor
  · intro h
    have hlen := congrArg List.length h
    simp at hlen
    exact hlen
  · rintro rfl
    simp

lemma flags_update_eq_self (inv : Invoice) (X : List AuditFlag) :
    ({ inv with audit_flags := X } = inv) ↔ X = inv.audit_flags := by
  constructor
  · intro h
    have := congrArg Invoice.audit_flags h
    simpa using this
  · intro h
    cases inv
    simp_all

lemma update_append_idem (inv : Invoice) (N : List AuditFlag) :
    ({ inv with audit_flags := inv.audit_flags ++ N } = inv) ↔ N = [] := by
  rw [flags_update_eq_self, append_eq_self_iff]

/-- The tax-verification loop decomposes into its running sum and its appended
mismatch flags. -/
lemma vatLoop_eq (vm : VatManager) (b : Bool) :
    ∀ (items : List LineItem) (acc : ℚ) (inv : Invoice),
      vatLoop vm b acc inv items =
        (acc + vatSum b items,
         { inv with audit_flags := inv.audit_flags ++ vatMismatchFlags vm items }) := by
  intro items
  induction items with
  | nil => intro acc inv; simp [vatLoop, vatSum, vatMismatchFlags]
  | cons item rest ih =>
      intro acc inv
      simp only [vatLoop, vatSum, vatMismatchFlags, ih]
      by_cases hm : item.vat_rate ≠ (vm.lookup_item item.description).1 <;>
        cases b <;>
          simp [hm, Invoice.add_flag, List.append_assoc, add_assoc]

/-- One `verify_vat_math` application appends exactly `verifyNewFlags` and leaves
every other field unchanged. -/
lemma verify_vat_math_eq (inv : Invoice) (vm : VatManager) :
    verify_vat_math inv vm =
      { inv with audit_flags := inv.audit_flags ++ verifyNewFlags vm inv } := by
  simp only [verify_vat_math, vatLoop_eq, zero_add, verifyNewFlags, aggFlagList]
  by_cases h : (0.05 : ℚ) < |vatSum inv.prices_include_vat inv.line_items - inv.total_vat_raw|
  · rw [if_pos h, if_pos h]
    simp [Invoice.add_flag, List.append_assoc]
  · rw [if_neg h, if_neg h]
    simp

/-- Overwriting a key makes it the key's stored value. -/
lemma cacheGet_cacheSet_same (c : CacheStore) (k : String) (v : CacheEntry) :
    cacheGet (cacheSet c k v) k = some v := by
  induction c with
  | nil => simp [cacheSet, cacheGet]
  | cons kv t ih =>
      obtain ⟨k', v'⟩ := kv
      by_cases hk : (k' == k) = true
      · simp [cacheSet, cacheGet, hk]
      · simp [cacheSet, cacheGet, hk, ih]

/-! ## Claims -/

/-- Claim C1: disposition assignment is a function of the accumulated flags alone —
no flags gives Green, any High-severity flag gives Red, otherwise Review — it
leaves the flags themselves unchanged, and a completed legacy audit never returns
a Pending status. -/
theorem c1_assign_status_disposition (inv : Invoice) :
    (assign_status inv).status =
      (if inv.audit_flags = [] then Status.green
       else if inv.audit_flags.any (fun f => f.severity == Severity.high) then Status.red
       else Status.review)
    ∧ (assign_status inv).status ≠ Status.pending
    ∧ (assign_status inv).audit_flags = inv.audit_flags
    ∧ ∀ (vm : VatManager) (rr : RiskVerdict) (inv' : Invoice),
        legacy_run_audit_post inv vm rr = .ok inv' → inv'.status ≠ Status.pending := by
  refine ⟨?_, status_ne_pending inv, ?_, ?_⟩
  · unfold assign_status
    by_cases h : inv.audit_flags = []
    · rw [if_neg (not_not_intro h), if_pos h]
    · rw [if_pos h, if_neg h]
  · unfold assign_status
    split <;> rfl
  · intro vm rr inv' h
    unfold legacy_run_audit_post at h
    cases heq : audit_compliance (agent_verify_vat_math inv vm) rr with
    | error e =>
        rw [heq] at h
        exact absurd h (by simp)
    | ok j =>
        rw [heq] at h
        simp only [Except.ok.injEq] at h
        subst h
        exact status_ne_pending _

/-- Witness for C1: a concrete flagless audit completes with status Green, not
Pending. -/
theorem c1_witness :
    legacy_run_audit_post invGreen vm0 rrValid = .ok { invGreen with status := Status.green }
    ∧ ({ invGreen with status := Status.green } : Invoice).status ≠ Status.pending := by
  have h1 : agent_verify_vat_math invGreen vm0 = invGreen := by
    norm_num [agent_verify_vat_math, vatLoop, invGreen, abs]
  have h2 : audit_compliance invGreen rrValid = .ok invGreen := rfl
  have h3 : handle_currency invGreen = invGreen := rfl
  have h4 : assign_status invGreen = { invGreen with status := Status.green } := rfl
  have hEval : legacy_run_audit_post invGreen vm0 rrValid =
      .ok { invGreen with status := Status.green } := by
    unfold legacy_run_audit_post
    rw [h1, h2]
    show Except.ok (assign_status (handle_currency invGreen)) =
      Except.ok ({ invGreen with status := Status.green } : Invoice)
    rw [h3, h4]
  exact ⟨hEval, (c1_assign_status_disposition invGreen).2.2.2 vm0 rrValid _ hEval⟩

/-- Claim C2 (amended): with a truthy vendor CVR and an invalid verdict, the
compliance step appends a Compliance flag whose severity is the verdict's
`risk_level` (defaulting to High when absent) and whose message embeds the
registry's message — but only when that `risk_level` is one of Low/Medium/High;
a verdict carrying any other risk level (Unknown, Critical) fails the severity
validation and aborts the audit. -/
theorem c2_amended (inv : Invoice) (rr : RiskVerdict)
    (hcvr : optTruthy inv.vendor_cvr = true) (hvalid : rr.valid = false) :
    (∀ sev, Severity.ofString (rr.risk_level.getD "High") = some sev →
        audit_compliance inv rr =
          .ok (inv.add_flag .compliance sev ("CVR Alert: " ++ optStr rr.message)))
    ∧ (Severity.ofString (rr.risk_level.getD "High") = none →
        audit_compliance inv rr = .error "severity: Input should be Low, Medium or High")
    ∧ (rr.risk_level = none →
        audit_compliance inv rr =
          .ok (inv.add_flag .compliance .high ("CVR Alert: " ++ optStr rr.message))) := by
  refine ⟨?_, ?_, ?_⟩
  · intro sev hs
    simp [audit_compliance, hcvr, hvalid, hs]
  · intro hs
    simp [audit_compliance, hcvr, hvalid, hs]
  · intro hs
    simp [audit_compliance, hcvr, hvalid, hs, Option.getD, Severity.ofString]

/-- Counterexample for C2 as stated: an Unknown-risk verdict (degraded registry)
and a Critical-risk verdict (bankruptcy) both abort the compliance step instead
of completing the audit with a flag. -/
theorem c2_counterexample :
    audit_compliance invCvr rrUnknown = .error "severity: Input should be Low, Medium or High"
    ∧ audit_compliance invCvr rrCritical =
        .error "severity: Input should be Low, Medium or High" := by
  constructor <;> rfl

/-- Witness for C2: a High-risk invalid verdict produces the Compliance/High flag. -/
theorem c2_witness :
    optTruthy invCvr.vendor_cvr = true
    ∧ rrHigh.valid = false
    ∧ audit_compliance invCvr rrHigh =
        .ok (invCvr.add_flag .compliance .high ("CVR Alert: " ++ optStr rrHigh.message)) :=
  ⟨by decide, by decide,
    (c2_amended invCvr rrHigh (by decide) (by decide)).1 .high (by decide)⟩

/-- Claim C3 evaluated on the failing input: on a tax-inclusive invoice with one
125.00 line at rate 0.25 and claimed tax 25.00, `processing/post_audit.py`'s
`verify_vat_math` (inclusive component 25.00) adds no flag, exactly as the claim
states — but the `verify_vat_math` the packaged `run_audit` actually calls (the
same arithmetic as the legacy `_audit_vat_logic`) computes 31.25 regardless of the
inclusive flag and appends a Data Integrity/High flag. Both variants agree that a
difference of exactly 0.05 does not flag. -/
theorem c3_inclusive_mode_drift :
    verify_vat_math invNoCvr vm0 = invNoCvr
    ∧ (agent_verify_vat_math invNoCvr vm0).audit_flags.map (fun f => (f.category, f.severity))
        = [(FlagCategory.dataIntegrity, Severity.high)]
    ∧ invNoCvr.prices_include_vat = true
    ∧ invNoCvr.total_vat_raw = 25
    ∧ (vatLoop vm0 true 0 invNoCvr invNoCvr.line_items).1 = 25
    ∧ (vatLoop vm0 false 0 invNoCvr invNoCvr.line_items).1 = 31.25
    ∧ verify_vat_math invBoundary vm0 = invBoundary
    ∧ agent_verify_vat_math invBoundary vm0 = invBoundary := by
  refine ⟨?_, ?_, rfl, rfl, ?_, ?_, ?_, ?_⟩
  · norm_num [verify_vat_math, vatLoop, invNoCvr, itemWidget, vm0,
      VatManager.lookup_item, lookupScan, Invoice.add_flag, abs]
  · norm_num [agent_verify_vat_math, vatLoop, invNoCvr, itemWidget, vm0,
      VatManager.lookup_item, lookupScan, Invoice.add_flag, abs]
  · norm_num [vatLoop, invNoCvr, itemWidget, vm0, VatManager.lookup_item, lookupScan]
  · norm_num [vatLoop, invNoCvr, itemWidget, vm0, VatManager.lookup_item, lookupScan]
  · norm_num [verify_vat_math, vatLoop, invBoundary, vm0,
      VatManager.lookup_item, lookupScan, Invoice.add_flag, abs]
  · norm_num [agent_verify_vat_math, vatLoop, invBoundary, vm0,
      VatManager.lookup_item, lookupScan, Invoice.add_flag, abs]

/-- Claim C4: `lookup_item` uppercases the description and returns the first rule
in configured order whose keyword is a substring of the normalised description,
falling back to the configured defaults (0.25, "Standard (25%)", "Standard Rate");
the result is invariant under the description's casing. -/
theorem c4_lookup_item_first_match (vm : VatManager) (d d' : String) :
    vm.lookup_item d =
      (match vm.exempt_keywords.find? (fun r => strContains (pyUpper d) r.keyword) with
       | some rule => (rule.vat_rate, rule.category, rule.reason)
       | none =>
           (vm.standard_defaults.vat_rate.getD 0.25,
            vm.standard_defaults.category.getD "Standard (25%)",
            "Standard Rate"))
    ∧ (pyUpper d = pyUpper d' → vm.lookup_item d = vm.lookup_item d') := by
  constructor
  · simp only [VatManager.lookup_item]
    rw [lookupScan_eq_find]
  · intro h
    simp only [VatManager.lookup_item]
    rw [h]

/-- Witness for C4: the Pant rule matches regardless of casing and surrounding
text. -/
theorem c4_witness :
    pyUpper "Coca Cola + Pant A" = pyUpper "COCA COLA + pant a"
    ∧ VatManager.lookup_item vmPant "Coca Cola + Pant A" =
        VatManager.lookup_item vmPant "COCA COLA + pant a" :=
  ⟨by decide,
    (c4_lookup_item_first_match vmPant "Coca Cola + Pant A" "COCA COLA + pant a").2 (by decide)⟩

/-- Claim C5 evaluated: the legacy compliance step on a CVR-less invoice appends
exactly the Compliance/Medium "No CVR number found" flag without consulting the
registry verdict at all (the result is the same for every verdict) — but the
packaged `run_audit` pipeline, audited end to end on a concrete CVR-less document,
completes with zero Compliance flags, because it has no compliance step. -/
theorem c5_no_cvr_compliance (rr : RiskVerdict) :
    audit_compliance invNoCvr rr =
      .ok (invNoCvr.add_flag .compliance .medium "No CVR number found on receipt.")
    ∧ (agent_run_audit_post arNoCvr "uid-1" "kiosk.jpg" vm0).toOption.map
        (fun inv => (inv.audit_flags.filter (fun f => f.category == FlagCategory.compliance),
                     inv.status)) = some ([], Status.red) := by
  constructor
  · rfl
  · norm_num [agent_run_audit_post, arNoCvr, vm0, itemWidget, Invoice.validate_cvr,
      agent_verify_vat_math, vatLoop, VatManager.lookup_item, lookupScan,
      handle_currency, assign_status, Invoice.add_flag, abs, Except.toOption,
      List.filter, List.any]
    rfl

/-- Claim C6 (amended): `Invoice` construction with a present id fails exactly when
the id is non-empty and not 8 characters all satisfying Python's `str.isdigit`;
an 8-ASCII-digit id is accepted unchanged and an absent id is accepted — but the
empty string, although present, skips the check (Python truthiness), and
`str.isdigit` also accepts non-ASCII digit characters. -/
theorem c6_amended (s : String) :
    (Invoice.validate_cvr (some s) = .error "CVR must be exactly 8 digits" ↔
      s.isEmpty = false ∧ (s.length ≠ 8 ∨ pyIsDigit s = false))
    ∧ (s.length = 8 → s.toList.all Char.isDigit = true →
        Invoice.validate_cvr (some s) = .ok (some s))
    ∧ Invoice.validate_cvr none = .ok none := by
  refine ⟨?_, ?_, rfl⟩
  · simp only [Invoice.validate_cvr]
    by_cases h : s.isEmpty = false ∧ (s.length ≠ 8 ∨ pyIsDigit s = false)
    · rw [if_pos h]; simp [h]
    · rw [if_neg h]; simp [h]
  · intro hlen hdig
    simp only [Invoice.validate_cvr]
    rw [if_neg]
    rintro ⟨-, h8 | hd⟩
    · exact h8 hlen
    · have hne : s.isEmpty = false := by
        rw [Bool.eq_false_iff]
        intro hemp
        rw [String.isEmpty_iff] at hemp
        subst hemp
        simp at hlen
      rw [pyIsDigit, hne] at hd
      simp only [Bool.not_false, Bool.true_and] at hd
      have hall : s.toList.all pyIsDigitChar = true := by
        rw [List.all_eq_true] at hdig ⊢
        intro c hc
        have := hdig c hc
        simp [pyIsDigitChar, this]
      rw [hall] at hd
      cases hd

/-- Counterexample for C6 as stated: the empty string is present and is not 8
ASCII digits, yet construction accepts it. -/
theorem c6_counterexample :
    Invoice.validate_cvr (some "") = .ok (some "")
    ∧ ("" : String).length ≠ 8 := by
  constructor
  · rfl
  · decide

/-- Witness for C6: a well-formed 8-digit id is accepted unchanged. -/
theorem c6_witness :
    ("12345678" : String).length = 8
    ∧ ("12345678" : String).toList.all Char.isDigit = true
    ∧ Invoice.validate_cvr (some "12345678") = .ok (some "12345678") :=
  ⟨by decide, by decide, (c6_amended "12345678").2.1 (by decide) (by decide)⟩

/-- Claim C7 (amended): disposition assignment is idempotent on every invoice;
currency normalisation is idempotent exactly on DKK invoices; re-applying the tax
verification equals one application exactly when that application appended no
flags; and the compliance step leaves the invoice unchanged (hence is idempotent)
when a truthy CVR yields a valid verdict. Steps that append flags append the same
flags again on re-application. -/
theorem c7_amended (inv : Invoice) (vm : VatManager) (rr : RiskVerdict) :
    assign_status (assign_status inv) = assign_status inv
    ∧ (handle_currency (handle_currency inv) = handle_currency inv ↔
        inv.currency = Currency.DKK)
    ∧ (verify_vat_math (verify_vat_math inv vm) vm = verify_vat_math inv vm ↔
        verify_vat_math inv vm = inv)
    ∧ (optTruthy inv.vendor_cvr = true → rr.valid = true →
        audit_compliance inv rr = .ok inv) := by
  refine ⟨?_, ?_, ?_, ?_⟩
  · by_cases h : inv.audit_flags = [] <;> simp [assign_status, h]
  · by_cases hc : inv.currency = Currency.DKK
    · simp [handle_currency, hc]
    · simp only [handle_currency, if_pos hc, iff_false_intro hc]
      rw [iff_false]
      intro heq
      have := congrArg (fun i => i.audit_flags.length) heq
      simp [Invoice.add_flag, hc] at this
  · have hNU : verifyNewFlags vm (verify_vat_math inv vm) = verifyNewFlags vm inv := by
      rw [verify_vat_math_eq]
      rfl
    rw [verify_vat_math_eq (verify_vat_math inv vm) vm, hNU,
      update_append_idem, verify_vat_math_eq inv vm, update_append_idem]
  · intro hcvr hvalid
    simp [audit_compliance, hcvr, hvalid]

/-- Counterexample for C7 as stated: re-applying currency normalisation to a
foreign-currency invoice appends a second Forex flag, so the step is not
idempotent. -/
theorem c7_counterexample :
    handle_currency (handle_currency invEur) ≠ handle_currency invEur := by
  intro h
  have := congrArg (fun i => i.audit_flags.length) h
  simp [handle_currency, invEur, Invoice.add_flag] at this

/-- Witness for C7: on a concrete invoice with a valid CVR verdict the compliance
step is the identity, and disposition assignment is idempotent. -/
theorem c7_witness :
    optTruthy invCvr.vendor_cvr = true
    ∧ rrValid.valid = true
    ∧ audit_compliance invCvr rrValid = .ok invCvr
    ∧ assign_status (assign_status invCvr) = assign_status invCvr :=
  ⟨by decide, rfl, (c7_amended invCvr vm0 rrValid).2.2.2 (by decide) rfl,
    (c7_amended invCvr vm0 rrValid).1⟩

/-- Claim C8: a cache entry for the normalised identifier younger than the 7-day
TTL is returned verbatim with no HTTP request and no cache change; and a verdict
written by a fetch for X round-trips identically when re-read within the TTL
window, again with no request. -/
theorem c8_cache_fresh_roundtrip :
    (∀ (cache : CacheStore) (now : ℤ) (x : String) (e : CacheEntry) (net : NetResponse),
        cacheGet cache (cleanCvr x) = some e →
        now - e.last_checked < cacheTtl →
        CvrManager.validate_cvr cache now x net =
          { verdict := e.data, cache := cache, httpCalled := false })
    ∧ (∀ (cache : CacheStore) (t t' : ℤ) (x : String) (p : RegistryPayload)
          (net' : NetResponse),
        cacheGet cache (cleanCvr x) = none →
        t' - t < cacheTtl →
        CvrManager.validate_cvr
            (CvrManager.validate_cvr cache t x (.success p)).cache t' x net' =
          { verdict := (CvrManager.validate_cvr cache t x (.success p)).verdict,
            cache := (CvrManager.validate_cvr cache t x (.success p)).cache,
            httpCalled := false }) := by
  constructor
  · intro cache now x e net hget hfresh
    simp [CvrManager.validate_cvr, hget, hfresh]
  · intro cache t t' x p net' hnone hfresh
    have hfirst : CvrManager.validate_cvr cache t x (.success p) =
        { verdict := analyze_risk p,
          cache := cacheSet cache (cleanCvr x) ⟨t, analyze_risk p⟩,
          httpCalled := true } := by
      simp [CvrManager.validate_cvr, hnone, cvrFetch]
    rw [hfirst]
    simp [CvrManager.validate_cvr, cacheGet_cacheSet_same, hfresh]

/-- Witness for C8: a fresh entry (1 hour old) is returned verbatim with no HTTP
request, whatever the network would have answered. -/
theorem c8_witness :
    cacheGet cacheNetto (cleanCvr "DK35954716") = some ⟨0, verdictLow⟩
    ∧ ((3600 : ℤ) - 0 < cacheTtl)
    ∧ CvrManager.validate_cvr cacheNetto 3600 "DK35954716" .notFound =
        { verdict := verdictLow, cache := cacheNetto, httpCalled := false } :=
  ⟨by decide, by decide,
    c8_cache_fresh_roundtrip.1 cacheNetto 3600 "DK35954716" ⟨0, verdictLow⟩ .notFound
      (by decide) (by decide)⟩

/-- Claim C9: on a transport failure, a (stale) cache entry is returned as the
cached verdict plus a non-empty staleness warning; with no cache entry the result
is invalid, risk Unknown, with the error embedded in the message. -/
theorem c9_transport_fallback :
    (∀ (cache : CacheStore) (now : ℤ) (x : String) (e : CacheEntry) (err : String),
        cacheGet cache (cleanCvr x) = some e →
        cacheTtl ≤ now - e.last_checked →
        (CvrManager.validate_cvr cache now x (.transportError err)).verdict =
          { e.data with warning := some offlineWarning }
        ∧ offlineWarning ≠ "")
    ∧ (∀ (cache : CacheStore) (now : ℤ) (x : String) (err : String),
        cacheGet cache (cleanCvr x) = none →
        CvrManager.validate_cvr cache now x (.transportError err) =
          { verdict := { valid := false, risk_level := some "Unknown",
                         message := some ("API Error: " ++ err) },
            cache := cache, httpCalled := true }) := by
  constructor
  · intro cache now x e err hget hstale
    refine ⟨?_, by decide⟩
    simp [CvrManager.validate_cvr, hget, not_lt.mpr hstale, cvrFetch]
  · intro cache now x err hnone
    simp [CvrManager.validate_cvr, hnone, cvrFetch]

/-- Witness for C9: a stale entry plus a transport error yields the cached verdict
with the offline warning added. -/
theorem c9_witness :
    cacheGet cacheNetto (cleanCvr "35954716") = some ⟨0, verdictLow⟩
    ∧ cacheTtl ≤ (10000000 : ℤ) - 0
    ∧ (CvrManager.validate_cvr cacheNetto 10000000 "35954716"
          (.transportError "Connection refused")).verdict =
        { verdictLow with warning := some offlineWarning } :=
  ⟨by decide, by decide,
    (c9_transport_fallback.1 cacheNetto 10000000 "35954716" ⟨0, verdictLow⟩
      "Connection refused" (by decide) (by decide)).1⟩

/-- Claim C10: the degraded-mode warning is written through to the manager's cache
entry itself (the Python code mutates the stored dict in place, so the returned
verdict and the cache entry's data coincide); a later wholesale cache save
therefore persists the warning. -/
theorem c10_inplace_cache_mutation (cache : CacheStore) (now : ℤ) (x : String)
    (e : CacheEntry) (err : String)
    (hget : cacheGet cache (cleanCvr x) = some e)
    (hstale : cacheTtl ≤ now - e.last_checked) :
    cacheGet (CvrManager.validate_cvr cache now x (.transportError err)).cache (cleanCvr x) =
      some { e with data := { e.data with warning := some offlineWarning } }
    ∧ (CvrManager.validate_cvr cache now x (.transportError err)).verdict =
        { e.data with warning := some offlineWarning } := by
  have h : CvrManager.validate_cvr cache now x (.transportError err) =
      { verdict := { e.data with warning := some offlineWarning },
        cache := cacheSet cache (cleanCvr x)
          { e with data := { e.data with warning := some offlineWarning } },
        httpCalled := true } := by
    simp [CvrManager.validate_cvr, hget, not_lt.mpr hstale, cvrFetch]
  rw [h]
  exact ⟨cacheGet_cacheSet_same _ _ _, rfl⟩

/-- Witness for C10: after a concrete degraded-mode call the manager's own cache
entry contains the warning. -/
theorem c10_witness :
    cacheGet cacheNetto (cleanCvr "35954716") = some ⟨0, verdictLow⟩
    ∧ cacheTtl ≤ (10000000 : ℤ) - 0
    ∧ cacheGet (CvrManager.validate_cvr cacheNetto 10000000 "35954716"
          (.transportError "boom")).cache (cleanCvr "35954716") =
        some ⟨0, { verdictLow with warning := some offlineWarning }⟩ :=
  ⟨by decide, by decide,
    (c10_inplace_cache_mutation cacheNetto 10000000 "35954716" ⟨0, verdictLow⟩ "boom"
      (by decide) (by decide)).1⟩

end InvoiceAuditor
